import Mathlib

/-!
# Verification of the whisper transcription module

Shallow embedding of `src/src-tauri/src/transcription.rs` (decision-journal-v2).

Modelling conventions:
* The external filesystem is a small record `FS` holding, per model tier, the
  optional byte content of the tier's file, plus booleans saying whether a
  metadata read, a file write or a file removal would fail (these model the
  fallible `std::fs` calls the Rust code handles).
* `f64`/`f32` arithmetic is modelled exactly over `ℚ`; the claims under check
  are about the arithmetic expressions the code computes, not about rounding.
* The network client (`reqwest`), the WAV container parser (`hound`) and the
  whisper backend (`whisper_rs`) are external collaborators; they enter the
  model as oracles (`NetResult`, a pre-parsed `Wav` value wrapped in
  `Except` for the header-parse failure, and `Backend`).
* Each Tauri command becomes a pure function from the relevant state to a
  result together with the successor state and a trace of externally visible
  effects (`Effect`), so ordering facts ("clears the cache before removing
  the file") are expressible.
* `Outcome` has a third constructor `panic` modelling a Rust panic
  (out-of-bounds index, `Option::unwrap` on `None`).
* The `Mutex` in `WhisperState` is held from the lock acquisition in
  `transcribe_audio` (line 212) to the end of the function, with no await
  point in between; a guarded section is therefore atomic, and a concurrent
  execution of two calls is equivalent to running the two calls in one of the
  two sequential orders.  The concurrency claims are stated over that
  sequential composition.
-/

namespace DecisionJournal

/-- Opaque backend recognition context (`whisper_rs::WhisperContext`),
identified by the model file it was constructed from. -/
structure WhisperContext where
  modelPath : String
deriving Repr, DecidableEq

/-- `WhisperState` from transcription.rs lines 22-25: the engine's shared
state, held behind mutexes in the source.  `context` is the cached backend
context (`loadedContext` in the spec), `model_path` the remembered model path
(`activePath` in the spec). -/
structure WhisperState where
  context : Option WhisperContext
  model_path : Option String
deriving Repr, DecidableEq

/-- `ModelStatus` from transcription.rs lines 7-14. -/
structure ModelStatus where
  model_type : Option String
  is_downloaded : Bool
  model_path : Option String
  model_size_mb : Option ℚ
deriving Repr, DecidableEq

/-- `TranscriptionResult` from transcription.rs lines 16-20; the text is
modelled as a list of characters. -/
structure TranscriptionResult where
  text : List Char
  success : Bool
deriving Repr, DecidableEq

/-- Externally visible effects of a command, in execution order. -/
inductive Effect where
  | netRequest (url : String)
  | fsWrite (path : String)
  | fsRemove (path : String)
  | clearContext
  | backendLoad (path : String)
deriving Repr, DecidableEq

/-- Model of the filesystem under the models directory: per tier the optional
byte content of `ggml-tiny.en.bin` / `ggml-base.en.bin`, plus flags saying
whether the fallible `std::fs` operations (metadata read, write, remove)
would fail.  Directory resolution/creation (`get_model_dir`) is abstracted as
always succeeding; no claim depends on a `DirectoryError`. -/
structure FS where
  tiny : Option (List Nat)
  base : Option (List Nat)
  tinyMetaFails : Bool
  baseMetaFails : Bool
  writeFails : Bool
  removeFails : Bool
deriving Repr, DecidableEq

/-- The tier-identifier translation at the top of `download_whisper_model`
and `delete_whisper_model` (lines 104-108 and 158-162): external "tiny"/"base"
to internal model name, `none` for the `InvalidArgument` branch. -/
def modelNameOf (model_type : String) : Option String :=
  match model_type with
  | "tiny" => some "tiny.en"
  | "base" => some "base.en"
  | _ => none

/-- `get_model_path` (lines 51-55): models-dir path for a model name. -/
def get_model_path (model_name : String) : String :=
  "models/ggml-" ++ model_name ++ ".bin"

/-- Filesystem probe for a model name's file. -/
def FS.file (fs : FS) (model_name : String) : Option (List Nat) :=
  if model_name = "tiny.en" then fs.tiny
  else if model_name = "base.en" then fs.base
  else none

/-- Whether a metadata read on the model name's file fails. -/
def FS.metaFails (fs : FS) (model_name : String) : Bool :=
  if model_name = "tiny.en" then fs.tinyMetaFails else fs.baseMetaFails

/-- Remove the model name's file. -/
def FS.removeFile (fs : FS) (model_name : String) : FS :=
  if model_name = "tiny.en" then { fs with tiny := none }
  else { fs with base := none }

/-- Write bytes to the model name's file. -/
def FS.writeFile (fs : FS) (model_name : String) (bytes : List Nat) : FS :=
  if model_name = "tiny.en" then { fs with tiny := some bytes }
  else { fs with base := some bytes }

/-- `metadata.len() as f64 / (1024.0 * 1024.0)` (lines 72-73). -/
def fileSizeMb (bytes : List Nat) : ℚ := (bytes.length : ℚ) / (1024 * 1024)

/-- `get_model_status` (lines 57-97): probes the base (Standard) file first,
then the tiny (Compact) file; whichever exists first yields the reported
tier, path and size (size falls back to the nominal 142/75 when the metadata
read fails, `unwrap_or`).  Side effect: a found path is recorded into
`WhisperState.model_path` (lines 85-89). -/
def get_model_status (fs : FS) (state : WhisperState) : ModelStatus × WhisperState :=
  let tiny_path := get_model_path "tiny.en"
  let base_path := get_model_path "base.en"
  let res : Option String × Option String × Option ℚ :=
    match fs.base with
    | some bytes =>
      let size : ℚ := if fs.baseMetaFails then 142 else fileSizeMb bytes
      (some "base", some base_path, some size)
    | none =>
      match fs.tiny with
      | some bytes =>
        let size : ℚ := if fs.tinyMetaFails then 75 else fileSizeMb bytes
        (some "tiny", some tiny_path, some size)
      | none => (none, none, none)
  let state1 : WhisperState :=
    match res.2.1 with
    | some p => { state with model_path := some p }
    | none => state
  ({ model_type := res.1
     is_downloaded := res.2.1.isSome
     model_path := res.2.1
     model_size_mb := res.2.2 }, state1)

/-- Response of the network client for one GET: transport failure, or a
response with a success/failure status and a fallible body read.  Error
payloads are the formatted message fragments the code interpolates. -/
inductive NetResult where
  | transportErr (e : String)
  | response (statusOk : Bool) (statusText : String) (body : Except String (List Nat))

/-- `download_whisper_model` (lines 99-150).  Returns the command result, the
successor filesystem, and the effect trace.  The write-failure message drops
the interpolated io error text. -/
def download_whisper_model (fs : FS) (net : String → NetResult) (model_type : String) :
    Except String String × FS × List Effect :=
  match modelNameOf model_type with
  | none => (.error "Invalid model type. Must be 'tiny' or 'base'", fs, [])
  | some model_name =>
    let model_path := get_model_path model_name
    if (fs.file model_name).isSome then
      (.ok ("Model " ++ model_type ++ " already downloaded"), fs, [])
    else
      let urlOpt : Option String :=
        match model_name with
        | "tiny.en" => some "https://huggingface.co/ggerganov/whisper.cpp/resolve/main/ggml-tiny.en.bin"
        | "base.en" => some "https://huggingface.co/ggerganov/whisper.cpp/resolve/main/ggml-base.en.bin"
        | _ => none
      match urlOpt with
      | none => (.error "Unknown model", fs, [])
      | some model_url =>
        match net model_url with
        | .transportErr e =>
          (.error ("Failed to download model: " ++ e), fs, [.netRequest model_url])
        | .response statusOk statusText body =>
          if statusOk = false then
            (.error ("Failed to download model: HTTP " ++ statusText), fs, [.netRequest model_url])
          else
            match body with
            | .error e =>
              (.error ("Failed to read model data: " ++ e), fs, [.netRequest model_url])
            | .ok bytes =>
              if fs.writeFails then
                (.error "Failed to write model file", fs,
                 [.netRequest model_url, .fsWrite model_path])
              else
                (.ok ("Model " ++ model_type ++ " downloaded successfully"),
                 fs.writeFile model_name bytes,
                 [.netRequest model_url, .fsWrite model_path])

/-- `delete_whisper_model` (lines 152-183).  Returns the command result, the
successor engine state, the successor filesystem, and the effect trace.  Note
the source order: the absent-file early return (line 166) comes BEFORE the
context clear (lines 171-174), and only `state.context` is cleared — the
`state.model_path` mutex is never touched by this command.  The
delete-failure message drops the interpolated io error text. -/
def delete_whisper_model (fs : FS) (state : WhisperState) (model_type : String) :
    Except String String × WhisperState × FS × List Effect :=
  match modelNameOf model_type with
  | none => (.error "Invalid model type. Must be 'tiny' or 'base'", state, fs, [])
  | some model_name =>
    let model_path := get_model_path model_name
    if (fs.file model_name).isSome = false then
      (.ok ("Model " ++ model_type ++ " not found"), state, fs, [])
    else
      let state1 : WhisperState := { state with context := none }
      if fs.removeFails then
        (.error "Failed to delete model", state1, fs,
         [.clearContext, .fsRemove model_path])
      else
        (.ok ("Model " ++ model_type ++ " deleted successfully"), state1,
         fs.removeFile model_name, [.clearContext, .fsRemove model_path])

/-- Sample payload of a parsed WAV: `hound::SampleFormat` with the sample
sequence read off the reader (a fallible sample read is folded into the
parse oracle; no claim touches it).  Float samples are `ℚ` (exact model of
f32), int samples are the 16-bit signed values as `ℤ`. -/
inductive SampleData where
  | float (s : List ℚ)
  | int (s : List Int)
deriving Repr, DecidableEq

/-- A parsed WAV stream: spec fields from `hound::WavSpec` plus the sample
data.  (Sample rate is metadata only; the code performs no resampling.) -/
structure Wav where
  sample_rate : Nat
  channels : Nat
  data : SampleData
deriving Repr, DecidableEq

/-- Sample conversion (lines 229-243): float32 passes through; 16-bit int is
`sample as f32 / 32768.0` — exact in f32 and modelled exactly in `ℚ`. -/
def convertSamples : SampleData → List ℚ
  | .float s => s
  | .int s => s.map (fun v => (v : ℚ) / 32768)

/-- The stereo downmix body `samples.chunks(2).map(|chunk| (chunk[0] + chunk[1]) / 2.0)`
(lines 247-250).  `chunks(2)` yields a final 1-element chunk on odd input
length, and `chunk[1]` then panics (index out of bounds): modelled by `none`. -/
def chunkMean : List ℚ → Option (List ℚ)
  | [] => some []
  | [_] => none
  | a :: b :: rest => (chunkMean rest).map (fun t => (a + b) / 2 :: t)

/-- Channel handling (lines 246-253): exactly 2 channels are downmixed,
anything else passes through unchanged. -/
def downmix (channels : Nat) (samples : List ℚ) : Option (List ℚ) :=
  if channels = 2 then chunkMean samples else some samples

/-- The whisper backend as an oracle: context construction from a model file
(`WhisperContext::new_with_params`), state creation (`ctx.create_state`),
the recognition run (`state.full`, may depend on the samples), and the
segment read-back (`full_n_segments` + `full_get_segment_text`, collapsed
into one fallible ordered list of segment texts). -/
structure Backend where
  load : String → Except String WhisperContext
  createStateErr : Option String
  runErr : List ℚ → Option String
  segments : Except String (List (List Char))

/-- `load_whisper_context` (lines 185-192). -/
def load_whisper_context (backend : Backend) (model_path : String) :
    Except String WhisperContext :=
  (backend.load model_path).mapError (fun e => "Failed to load Whisper model: " ++ e)

/-- Result of a command that can also panic (Rust `panic!` aborts the call
instead of returning `Result`). -/
inductive Outcome (α : Type) where
  | ok (a : α)
  | err (e : String)
  | panic
deriving Repr, DecidableEq

/-- The segment-aggregation loop (lines 285-292):
`full_text.push_str(&segment); full_text.push(' ')` for each segment in index
order. -/
def buildFullText (segs : List (List Char)) : List Char :=
  segs.foldl (fun acc s => acc ++ s ++ [' ']) []

/-- Leading-whitespace strip, one half of Rust `str::trim` (line 294).
`Char.isWhitespace` covers the ASCII whitespace relevant here. -/
def trimLeft (s : List Char) : List Char := s.dropWhile Char.isWhitespace

/-- Trailing-whitespace strip, the other half of Rust `str::trim`. -/
def trimRight (s : List Char) : List Char :=
  (s.reverse.dropWhile Char.isWhitespace).reverse

/-- Rust `str::trim`: strip whitespace from both ends. -/
def rustTrim (s : List Char) : List Char := trimLeft (trimRight s)

/-- Modelled from the spec wording of step 6 ("concatenate their text with a
single space separator"), for comparison with the code's `buildFullText`. -/
def sepConcat : List (List Char) → List Char
  | [] => []
  | [s] => s
  | s :: t :: rest => s ++ ' ' :: sepConcat (t :: rest)

/-- The body of `transcribe_audio` after the context is available (lines
221-300): WAV decode, sample conversion, downmix, fixed-parameter
recognition, segment aggregation.  The engine state is threaded through
unchanged (this region never mutates it), as is the effect trace accumulated
so far. -/
def transcribeBody (backend : Backend) (audio : Except String Wav)
    (st : WhisperState) (efs : List Effect) :
    Outcome TranscriptionResult × WhisperState × List Effect :=
  match audio with
  | .error e => (.err ("Failed to read WAV data: " ++ e), st, efs)
  | .ok wav =>
    let samples := convertSamples wav.data
    match downmix wav.channels samples with
    | none => (.panic, st, efs)
    | some mono =>
      match backend.createStateErr with
      | some e => (.err ("Failed to create Whisper state: " ++ e), st, efs)
      | none =>
        match backend.runErr mono with
        | some e => (.err ("Failed to run transcription: " ++ e), st, efs)
        | none =>
          match backend.segments with
          | .error e => (.err e, st, efs)
          | .ok segs =>
            (.ok { text := rustTrim (buildFullText segs), success := true }, st, efs)

/-- `transcribe_audio` (lines 194-301).  Step order from the source: model
status query (which may record `model_path` into the state), `NoModelError`
check, `status.model_path.unwrap()` (a panic if it were `None`), lock
acquisition, lazy context load (the `?` on `load_whisper_context` returns
before the assignment, so a failed load leaves `context` untouched), then
the guarded body.  The whole function after the lock acquisition is one
atomic guarded section (no await point while the guard is held). -/
def transcribe_audio (fs : FS) (backend : Backend) (state : WhisperState)
    (audio : Except String Wav) :
    Outcome TranscriptionResult × WhisperState × List Effect :=
  let sp := get_model_status fs state
  if sp.1.is_downloaded = false then
    (.err "No Whisper model downloaded. Please download a model first.", sp.2, [])
  else
    match sp.1.model_path with
    | none => (.panic, sp.2, [])
    | some model_path =>
      match sp.2.context with
      | some _ => transcribeBody backend audio sp.2 []
      | none =>
        match load_whisper_context backend model_path with
        | .error e => (.err e, sp.2, [.backendLoad model_path])
        | .ok c =>
          transcribeBody backend audio { sp.2 with context := some c }
            [.backendLoad model_path]

/-- Recognizer of backend-load effects, for counting load invocations. -/
def isLoadEffect : Effect → Bool
  | .backendLoad _ => true
  | _ => false

/-- Number of backend load invocations in an effect trace. -/
def countLoads (efs : List Effect) : Nat := (efs.filter isLoadEffect).length

/-- Interleaving of stereo frames into the flat sample sequence a 2-channel
WAV stream carries: frame i contributes samples 2i (left) and 2i+1 (right). -/
def interleave : List (ℚ × ℚ) → List ℚ
  | [] => []
  | f :: rest => f.1 :: f.2 :: interleave rest

/-- C1 counterexample: deleting tier "base" whose file exists, with a loaded
context and a recorded model path, clears `context` but leaves `model_path`
set — delete does NOT clear both fields together, refuting the claim that
`loadedContext` and `activePath` are cleared together and never separately. -/
theorem delete_does_not_clear_model_path :
    ((⟨none, some [7], false, false, false, false⟩ : FS).file "base.en").isSome = true ∧
    (delete_whisper_model ⟨none, some [7], false, false, false, false⟩
        ⟨some ⟨"q"⟩, some "p"⟩ "base").2.1.context = none ∧
    (delete_whisper_model ⟨none, some [7], false, false, false, false⟩
        ⟨some ⟨"q"⟩, some "p"⟩ "base").2.1.model_path = some "p" ∧
    ¬ ((delete_whisper_model ⟨none, some [7], false, false, false, false⟩
        ⟨some ⟨"q"⟩, some "p"⟩ "base").2.1.model_path = none) := by
  decide

/-- C1 (amended): for every tier whose model file exists, delete clears the
cached context unconditionally (regardless of which tier is loaded) before
attempting the file removal, and leaves `model_path` (`activePath`)
unchanged — only `loadedContext` is cleared, the two fields are not cleared
together. -/
theorem delete_clears_context_only_before_removal (fs : FS) (st : WhisperState)
    (mt mn : String) (hmn : modelNameOf mt = some mn)
    (hex : (fs.file mn).isSome = true) :
    (delete_whisper_model fs st mt).2.1.context = none ∧
    (delete_whisper_model fs st mt).2.1.model_path = st.model_path ∧
    (delete_whisper_model fs st mt).2.2.2 =
      [Effect.clearContext, Effect.fsRemove (get_model_path mn)] := by
  unfold delete_whisper_model
  rw [hmn]
  rcases hrem : fs.removeFails <;> simp [hex, hrem]

/-- C1 witness: the amended delete behaviour at a concrete input. -/
theorem delete_clears_context_only_before_removal_witness :
    (delete_whisper_model ⟨none, some [7], false, false, false, false⟩
        ⟨some ⟨"q"⟩, some "p"⟩ "base").2.1.context = none ∧
    (delete_whisper_model ⟨none, some [7], false, false, false, false⟩
        ⟨some ⟨"q"⟩, some "p"⟩ "base").2.1.model_path =
      (⟨some ⟨"q"⟩, some "p"⟩ : WhisperState).model_path ∧
    (delete_whisper_model ⟨none, some [7], false, false, false, false⟩
        ⟨some ⟨"q"⟩, some "p"⟩ "base").2.2.2 =
      [Effect.clearContext, Effect.fsRemove (get_model_path "base.en")] :=
  delete_clears_context_only_before_removal _ _ "base" "base.en" (by decide) (by decide)

/-- C2 counterexample: deleting a valid tier ("tiny") whose file is absent
returns success by the early return at line 166 WITHOUT clearing the cached
context — the cache-clearing step does not run before that early return,
refuting the claim. -/
theorem delete_absent_skips_cache_clear :
    (delete_whisper_model ⟨none, none, false, false, false, false⟩
        ⟨some ⟨"q"⟩, some "p"⟩ "tiny").1 = .ok "Model tiny not found" ∧
    (delete_whisper_model ⟨none, none, false, false, false, false⟩
        ⟨some ⟨"q"⟩, some "p"⟩ "tiny").2.1.context = some ⟨"q"⟩ :=
  ⟨rfl, rfl⟩

/-- C2 (amended): for every valid tier whose file is already absent, delete
returns success as a complete no-op: the engine state (cached context
included) and the filesystem are unchanged and no effect is performed — the
cached context is NOT cleared in this case, because the absent-file early
return precedes the cache-clearing step. -/
theorem delete_absent_noop (fs : FS) (st : WhisperState) (mt mn : String)
    (hmn : modelNameOf mt = some mn)
    (habs : (fs.file mn).isSome = false) :
    (delete_whisper_model fs st mt).1 = .ok ("Model " ++ mt ++ " not found") ∧
    (delete_whisper_model fs st mt).2.1 = st ∧
    (delete_whisper_model fs st mt).2.2.1 = fs ∧
    (delete_whisper_model fs st mt).2.2.2 = [] := by
  unfold delete_whisper_model
  rw [hmn]
  simp [habs]

/-- C2 witness: the amended delete-on-absent behaviour at a concrete input. -/
theorem delete_absent_noop_witness :
    (delete_whisper_model ⟨none, none, false, false, false, false⟩
        ⟨some ⟨"q"⟩, some "p"⟩ "tiny").1 = .ok ("Model " ++ "tiny" ++ " not found") ∧
    (delete_whisper_model ⟨none, none, false, false, false, false⟩
        ⟨some ⟨"q"⟩, some "p"⟩ "tiny").2.1 = ⟨some ⟨"q"⟩, some "p"⟩ ∧
    (delete_whisper_model ⟨none, none, false, false, false, false⟩
        ⟨some ⟨"q"⟩, some "p"⟩ "tiny").2.2.1 = ⟨none, none, false, false, false, false⟩ ∧
    (delete_whisper_model ⟨none, none, false, false, false, false⟩
        ⟨some ⟨"q"⟩, some "p"⟩ "tiny").2.2.2 = [] :=
  delete_absent_noop _ _ "tiny" "tiny.en" (by decide) (by decide)

/-- C6: decoding 2-channel input made of N interleaved stereo frames yields
exactly N mono samples, the i-th being the arithmetic mean of the i-th
frame's two channel samples; 1-channel input passes through unchanged. -/
theorem stereo_downmix_mean_mono_passthrough (frames : List (ℚ × ℚ)) (mono : List ℚ) :
    downmix 2 (interleave frames) = some (frames.map (fun f => (f.1 + f.2) / 2)) ∧
    (frames.map (fun f => (f.1 + f.2) / 2)).length = frames.length ∧
    downmix 1 mono = some mono := by
  refine ⟨?_, by simp, by simp [downmix]⟩
  simp only [downmix, if_pos]
  induction frames with
  | nil => rfl
  | cons f rest ih => simp [interleave, chunkMean, ih]

/-- C7: a 16-bit signed sample s decodes to s / 32768 (so -32768 ↦ -1 and
32767 ↦ 32767/32768); float32 samples pass through unchanged. -/
theorem int16_scaling_float_passthrough (s : List Int) (f : List ℚ) :
    convertSamples (.int s) = s.map (fun v => (v : ℚ) / 32768) ∧
    convertSamples (.int [-32768]) = [-1] ∧
    convertSamples (.int [32767]) = [(32767 : ℚ) / 32768] ∧
    convertSamples (.float f) = f := by
  refine ⟨rfl, ?_, ?_, rfl⟩ <;> norm_num [convertSamples]

/-- C8: when both tier files exist, `get_model_status` reports the Standard
("base") tier with the base file's path and size (metadata size, or the 142
nominal fallback when the metadata read fails); and the Compact ("tiny")
tier is only ever reported when the base file is absent. -/
theorem status_prefers_standard (fs : FS) (st : WhisperState) (b : List Nat)
    (hbase : fs.base = some b) (_htiny : fs.tiny.isSome = true) :
    (get_model_status fs st).1.model_type = some "base" ∧
    (get_model_status fs st).1.model_path = some (get_model_path "base.en") ∧
    (get_model_status fs st).1.model_size_mb =
      some (if fs.baseMetaFails then (142 : ℚ) else fileSizeMb b) ∧
    (∀ (fs2 : FS) (st2 : WhisperState),
      (get_model_status fs2 st2).1.model_type = some "tiny" → fs2.base = none) := by
  refine ⟨?_, ?_, ?_, ?_⟩
  · unfold get_model_status; rw [hbase]
  · unfold get_model_status; rw [hbase]
  · unfold get_model_status; rw [hbase]
  · intro fs2 st2 h
    cases hb : fs2.base with
    | none => rfl
    | some bytes =>
      unfold get_model_status at h
      rw [hb] at h
      simp at h

/-- C8 witness: status priority at a concrete filesystem with both files. -/
theorem status_prefers_standard_witness :
    (get_model_status ⟨some [1, 2], some [1], false, false, false, false⟩ ⟨none, none⟩).1.model_type
      = some "base" ∧
    (get_model_status ⟨some [1, 2], some [1], false, false, false, false⟩ ⟨none, none⟩).1.model_path
      = some (get_model_path "base.en") ∧
    (get_model_status ⟨some [1, 2], some [1], false, false, false, false⟩ ⟨none, none⟩).1.model_size_mb
      = some (if (⟨some [1, 2], some [1], false, false, false, false⟩ : FS).baseMetaFails
              then (142 : ℚ) else fileSizeMb [1]) ∧
    (∀ (fs2 : FS) (st2 : WhisperState),
      (get_model_status fs2 st2).1.model_type = some "tiny" → fs2.base = none) :=
  status_prefers_standard _ _ [1] (by decide) (by decide)

/-- C9: downloading a tier whose resolved file already exists returns success
immediately, with no network request, no write, and the filesystem unchanged. -/
theorem download_idempotent_when_present (fs : FS) (net : String → NetResult) (mt : String)
    (h : (mt = "tiny" ∧ fs.tiny.isSome = true) ∨ (mt = "base" ∧ fs.base.isSome = true)) :
    (download_whisper_model fs net mt).1 = .ok ("Model " ++ mt ++ " already downloaded") ∧
    (download_whisper_model fs net mt).2.1 = fs ∧
    (download_whisper_model fs net mt).2.2 = [] := by
  rcases h with ⟨hmt, hex⟩ | ⟨hmt, hex⟩ <;> subst hmt <;>
    simp [download_whisper_model, modelNameOf, FS.file, hex]

/-- C9 witness: idempotent download at a concrete filesystem. -/
theorem download_idempotent_when_present_witness :
    (download_whisper_model ⟨some [9], none, false, false, false, false⟩
        (fun _ => .transportErr "down") "tiny").1
      = .ok ("Model " ++ "tiny" ++ " already downloaded") ∧
    (download_whisper_model ⟨some [9], none, false, false, false, false⟩
        (fun _ => .transportErr "down") "tiny").2.1
      = ⟨some [9], none, false, false, false, false⟩ ∧
    (download_whisper_model ⟨some [9], none, false, false, false, false⟩
        (fun _ => .transportErr "down") "tiny").2.2 = [] :=
  download_idempotent_when_present _ _ "tiny" (Or.inl ⟨rfl, by decide⟩)

/-- The guarded body of `transcribe_audio` never mutates the engine state and
never appends to the effect trace: decode, recognition and aggregation are
pure with respect to `WhisperState`. -/
theorem transcribeBody_frame (b : Backend) (a : Except String Wav)
    (st : WhisperState) (efs : List Effect) :
    (transcribeBody b a st efs).2.1 = st ∧ (transcribeBody b a st efs).2.2 = efs := by
  unfold transcribeBody
  dsimp only
  repeat' split
  all_goals exact ⟨rfl, rfl⟩

/-- Evaluation of `get_model_status` when the base file exists: the base tier
wins, and the state records the base path. -/
theorem get_model_status_base (fs : FS) (st : WhisperState) (b : List Nat)
    (hb : fs.base = some b) :
    get_model_status fs st =
      ({ model_type := some "base", is_downloaded := true,
         model_path := some (get_model_path "base.en"),
         model_size_mb := some (if fs.baseMetaFails then 142 else fileSizeMb b) },
       { st with model_path := some (get_model_path "base.en") }) := by
  unfold get_model_status
  rw [hb]
  rfl

/-- `transcribe_audio` with a cached context and the base file present goes
straight to the guarded body: no load is attempted. -/
theorem transcribe_audio_loaded (fs : FS) (b : Backend) (st : WhisperState)
    (a : Except String Wav) (c : WhisperContext) (bts : List Nat)
    (hb : fs.base = some bts) (hc : st.context = some c) :
    transcribe_audio fs b st a =
      transcribeBody b a { st with model_path := some (get_model_path "base.en") } [] := by
  unfold transcribe_audio
  rw [get_model_status_base fs st bts hb]
  dsimp only
  rw [hc]
  rfl

/-- `transcribe_audio` with no cached context, the base file present and a
succeeding backend load: one load effect, and the loaded context is cached
before the guarded body runs. -/
theorem transcribe_audio_load_ok (fs : FS) (b : Backend) (st : WhisperState)
    (a : Except String Wav) (c : WhisperContext) (bts : List Nat)
    (hb : fs.base = some bts) (hc : st.context = none)
    (hl : b.load (get_model_path "base.en") = .ok c) :
    transcribe_audio fs b st a =
      transcribeBody b a ⟨some c, some (get_model_path "base.en")⟩
        [.backendLoad (get_model_path "base.en")] := by
  unfold transcribe_audio
  rw [get_model_status_base fs st bts hb]
  dsimp only
  rw [hc]
  unfold load_whisper_context
  rw [hl]
  rfl

/-- `transcribe_audio` with no cached context and a failing backend load: the
error propagates (via the `?` before the cache assignment) and the context
stays uncached. -/
theorem transcribe_audio_load_err (fs : FS) (b : Backend) (st : WhisperState)
    (a : Except String Wav) (e : String) (bts : List Nat)
    (hb : fs.base = some bts) (hc : st.context = none)
    (hl : b.load (get_model_path "base.en") = .error e) :
    transcribe_audio fs b st a =
      (.err ("Failed to load Whisper model: " ++ e),
       { st with model_path := some (get_model_path "base.en") },
       [.backendLoad (get_model_path "base.en")]) := by
  unfold transcribe_audio
  rw [get_model_status_base fs st bts hb]
  dsimp only
  rw [hc]
  unfold load_whisper_context
  rw [hl]
  rfl

/-- Inversion for the guarded body: a success outcome can only come from the
final branch, with the text built from the backend's emitted segments. -/
theorem transcribeBody_ok_inv (b : Backend) (a : Except String Wav)
    (st : WhisperState) (efs : List Effect) (r : TranscriptionResult)
    (h : (transcribeBody b a st efs).1 = .ok r) :
    ∃ segs, b.segments = .ok segs ∧ r = ⟨rustTrim (buildFullText segs), true⟩ := by
  unfold transcribeBody at h
  dsimp only at h
  repeat' split at h
  all_goals first
    | exact Outcome.noConfusion h
    | (rename_i segs hsegs
       exact ⟨segs, hsegs, by injection h with h2; exact h2.symm⟩)

/-- Inversion for `transcribe_audio`: every success outcome is produced by
the guarded body from the backend's emitted segments. -/
theorem transcribe_audio_ok_inv (fs : FS) (b : Backend) (st : WhisperState)
    (a : Except String Wav) (r : TranscriptionResult)
    (h : (transcribe_audio fs b st a).1 = .ok r) :
    ∃ segs, b.segments = .ok segs ∧ r = ⟨rustTrim (buildFullText segs), true⟩ := by
  unfold transcribe_audio at h
  dsimp only at h
  repeat' split at h
  all_goals first
    | exact Outcome.noConfusion h
    | exact transcribeBody_ok_inv _ _ _ _ _ h

/-- The aggregation fold factors through its accumulator. -/
theorem buildFullText_foldl_acc (segs : List (List Char)) (acc : List Char) :
    segs.foldl (fun a s => a ++ s ++ [' ']) acc =
      acc ++ segs.foldl (fun a s => a ++ s ++ [' ']) [] := by
  induction segs generalizing acc with
  | nil => simp
  | cons s t ih =>
    simp only [List.foldl_cons]
    rw [ih (acc ++ s ++ [' ']), ih ([] ++ s ++ [' '])]
    simp

/-- Unfolding of the aggregation fold on a cons cell. -/
theorem buildFullText_cons (s : List Char) (t : List (List Char)) :
    buildFullText (s :: t) = s ++ [' '] ++ buildFullText t := by
  unfold buildFullText
  simp only [List.foldl_cons]
  rw [buildFullText_foldl_acc t ([] ++ s ++ [' '])]
  simp

/-- The code's fold (separator after every segment) equals the spec's
single-space-separated concatenation followed by one trailing space. -/
theorem buildFullText_eq_sepConcat (segs : List (List Char)) (hne : segs ≠ []) :
    buildFullText segs = sepConcat segs ++ [' '] := by
  induction segs with
  | nil => exact absurd rfl hne
  | cons s t ih =>
    cases t with
    | nil => simp [buildFullText, sepConcat]
    | cons u v =>
      rw [buildFullText_cons, ih (by simp), sepConcat]
      simp

/-- A trailing space is absorbed by the right trim. -/
theorem trimRight_append_space (xs : List Char) : trimRight (xs ++ [' ']) = trimRight xs := by
  unfold trimRight
  rw [List.reverse_append]
  simp [List.dropWhile]

/-- After trimming, the code's fold and the spec's single-space-separated
concatenation agree. -/
theorem rustTrim_buildFullText (segs : List (List Char)) :
    rustTrim (buildFullText segs) = rustTrim (sepConcat segs) := by
  cases segs with
  | nil => rfl
  | cons s t =>
    rw [buildFullText_eq_sepConcat (s :: t) (by simp)]
    unfold rustTrim
    rw [trimRight_append_space]

/-- `chunks(2)` over an odd-length sample sequence ends in a singleton chunk
whose second-element access panics. -/
theorem chunkMean_odd (s : List ℚ) (h : s.length % 2 = 1) : chunkMean s = none := by
  induction s using chunkMean.induct with
  | case1 => simp at h
  | case2 a => rfl
  | case3 a b rest ih =>
    have hr : rest.length % 2 = 1 := by
      simp [List.length_cons] at h
      omega
    simp [chunkMean, ih hr]

/-- C3: two transcribe calls against an Unloaded engine with a valid (base)
model perform exactly one backend load between them; the first call caches
the loaded context and the second reuses it (its trace holds no load and its
final state still holds the same context).  Because the exclusive guard is
held across the whole load-then-use sequence and contains no suspension
point, any concurrent execution of the two calls is one of the sequential
orders quantified here (the two calls' audio payloads are arbitrary, so both
orders are instances). -/
theorem transcribe_single_load_under_contention (fs : FS) (b : Backend)
    (st : WhisperState) (a1 a2 : Except String Wav) (c : WhisperContext) (bts : List Nat)
    (hctx : st.context = none) (hb : fs.base = some bts)
    (hl : b.load (get_model_path "base.en") = .ok c) :
    countLoads ((transcribe_audio fs b st a1).2.2 ++
      (transcribe_audio fs b (transcribe_audio fs b st a1).2.1 a2).2.2) = 1 ∧
    countLoads (transcribe_audio fs b (transcribe_audio fs b st a1).2.1 a2).2.2 = 0 ∧
    (transcribe_audio fs b st a1).2.1.context = some c ∧
    (transcribe_audio fs b (transcribe_audio fs b st a1).2.1 a2).2.1.context = some c := by
  have h1 := transcribe_audio_load_ok fs b st a1 c bts hb hctx hl
  have hbody1 := transcribeBody_frame b a1 ⟨some c, some (get_model_path "base.en")⟩
    [.backendLoad (get_model_path "base.en")]
  have hs1 : (transcribe_audio fs b st a1).2.1 = ⟨some c, some (get_model_path "base.en")⟩ := by
    rw [h1]; exact hbody1.1
  have he1 : (transcribe_audio fs b st a1).2.2 = [.backendLoad (get_model_path "base.en")] := by
    rw [h1]; exact hbody1.2
  have h2 := transcribe_audio_loaded fs b ⟨some c, some (get_model_path "base.en")⟩ a2 c bts hb rfl
  have hbody2 := transcribeBody_frame b a2 ⟨some c, some (get_model_path "base.en")⟩ []
  have hs2 : (transcribe_audio fs b ⟨some c, some (get_model_path "base.en")⟩ a2).2.1
      = ⟨some c, some (get_model_path "base.en")⟩ := by
    rw [h2]; exact hbody2.1
  have he2 : (transcribe_audio fs b ⟨some c, some (get_model_path "base.en")⟩ a2).2.2 = [] := by
    rw [h2]; exact hbody2.2
  rw [hs1, he1, he2, hs2]
  exact ⟨rfl, rfl, rfl, rfl⟩

/-- C3 witness: one load across two back-to-back calls at a concrete engine
run (base model present, empty-trace audio errors keep the run short). -/
theorem transcribe_single_load_under_contention_witness :
    countLoads ((transcribe_audio ⟨none, some [1], false, false, false, false⟩
        ⟨fun p => .ok ⟨p⟩, none, fun _ => none, .ok []⟩ ⟨none, none⟩ (.error "x")).2.2 ++
      (transcribe_audio ⟨none, some [1], false, false, false, false⟩
        ⟨fun p => .ok ⟨p⟩, none, fun _ => none, .ok []⟩
        (transcribe_audio ⟨none, some [1], false, false, false, false⟩
          ⟨fun p => .ok ⟨p⟩, none, fun _ => none, .ok []⟩ ⟨none, none⟩ (.error "x")).2.1
        (.error "y")).2.2) = 1 :=
  (transcribe_single_load_under_contention ⟨none, some [1], false, false, false, false⟩
    ⟨fun p => .ok ⟨p⟩, none, fun _ => none, .ok []⟩ ⟨none, none⟩ (.error "x") (.error "y")
    ⟨get_model_path "base.en"⟩ [1] rfl rfl rfl).1

/-- C4: a transcribe call in the Unloaded state whose backend load fails
returns the `ModelLoadError` message, leaves the context uncached (state
remains Unloaded), and a later transcribe call re-attempts the load (its
trace holds one load invocation again). -/
theorem transcribe_load_failure_keeps_unloaded (fs : FS) (b : Backend)
    (st : WhisperState) (a : Except String Wav) (e : String) (bts : List Nat)
    (hctx : st.context = none) (hb : fs.base = some bts)
    (hl : b.load (get_model_path "base.en") = .error e) :
    (transcribe_audio fs b st a).1 = .err ("Failed to load Whisper model: " ++ e) ∧
    (transcribe_audio fs b st a).2.1.context = none ∧
    countLoads (transcribe_audio fs b (transcribe_audio fs b st a).2.1 a).2.2 = 1 := by
  have h1 := transcribe_audio_load_err fs b st a e bts hb hctx hl
  have hs1 : (transcribe_audio fs b st a).2.1
      = { st with model_path := some (get_model_path "base.en") } := by rw [h1]
  refine ⟨by rw [h1], by rw [hs1]; exact hctx, ?_⟩
  rw [hs1]
  have h2 := transcribe_audio_load_err fs b
    { st with model_path := some (get_model_path "base.en") } a e bts hb hctx hl
  rw [h2]
  rfl

/-- C4 witness: failed load at a concrete engine run. -/
theorem transcribe_load_failure_keeps_unloaded_witness :
    (transcribe_audio ⟨none, some [1], false, false, false, false⟩
      ⟨fun _ => .error "bad", none, fun _ => none, .ok []⟩ ⟨none, none⟩ (.error "x")).1
      = .err ("Failed to load Whisper model: " ++ "bad") :=
  (transcribe_load_failure_keeps_unloaded ⟨none, some [1], false, false, false, false⟩
    ⟨fun _ => .error "bad", none, fun _ => none, .ok []⟩ ⟨none, none⟩ (.error "x")
    "bad" [1] rfl rfl rfl).1

/-- C5: every non-error transcribe result has `success = true`, and its text
is the backend's emitted segment texts, in segment-index order, concatenated
with a single space separator and trimmed of leading/trailing whitespace. -/
theorem transcribe_success_text_aggregation (fs : FS) (b : Backend)
    (st : WhisperState) (a : Except String Wav) (r : TranscriptionResult)
    (segs : List (List Char))
    (hsegs : b.segments = .ok segs)
    (h : (transcribe_audio fs b st a).1 = .ok r) :
    r.success = true ∧ r.text = rustTrim (sepConcat segs) := by
  obtain ⟨segs2, hs2, hr⟩ := transcribe_audio_ok_inv fs b st a r h
  rw [hsegs] at hs2
  injection hs2 with hseq
  subst hseq
  rw [hr]
  exact ⟨rfl, rustTrim_buildFullText segs⟩

/-- C5 witness: segments "hi" and "yo" aggregate to "hi yo" with
`success = true` at a concrete engine run. -/
theorem transcribe_success_text_aggregation_witness :
    (⟨['h', 'i', ' ', 'y', 'o'], true⟩ : TranscriptionResult).success = true ∧
    (⟨['h', 'i', ' ', 'y', 'o'], true⟩ : TranscriptionResult).text
      = rustTrim (sepConcat [['h', 'i'], ['y', 'o']]) :=
  transcribe_success_text_aggregation ⟨none, some [1], false, false, false, false⟩
    ⟨fun p => .ok ⟨p⟩, none, fun _ => none, .ok [['h', 'i'], ['y', 'o']]⟩
    ⟨some ⟨"m"⟩, none⟩ (.ok ⟨16000, 1, .float []⟩)
    ⟨['h', 'i', ' ', 'y', 'o'], true⟩ [['h', 'i'], ['y', 'o']] rfl (by rfl)

/-- C10: a two-channel WAV whose interleaved sample count is odd drives the
downmix into a singleton final chunk, and the `chunk[1]` access panics: the
transcribe call ends in a panic, not in a result or a `FormatError`. -/
theorem stereo_odd_sample_count_panics (fs : FS) (b : Backend) (st : WhisperState)
    (wav : Wav) (c : WhisperContext) (bts : List Nat)
    (hch : wav.channels = 2)
    (hodd : (convertSamples wav.data).length % 2 = 1)
    (hb : fs.base = some bts)
    (hctx : st.context = some c) :
    (transcribe_audio fs b st (.ok wav)).1 = .panic := by
  rw [transcribe_audio_loaded fs b st (.ok wav) c bts hb hctx]
  unfold transcribeBody
  dsimp only
  have hd : downmix wav.channels (convertSamples wav.data) = none := by
    rw [hch]
    simp [downmix, chunkMean_odd _ hodd]
  rw [hd]

/-- C10 witness: a 3-sample 2-channel input panics at a concrete run. -/
theorem stereo_odd_sample_count_panics_witness :
    (transcribe_audio ⟨none, some [1], false, false, false, false⟩
      ⟨fun p => .ok ⟨p⟩, none, fun _ => none, .ok []⟩ ⟨some ⟨"m"⟩, none⟩
      (.ok ⟨16000, 2, .float [0, 0, 0]⟩)).1 = .panic :=
  stereo_odd_sample_count_panics ⟨none, some [1], false, false, false, false⟩
    ⟨fun p => .ok ⟨p⟩, none, fun _ => none, .ok []⟩ ⟨some ⟨"m"⟩, none⟩
    ⟨16000, 2, .float [0, 0, 0]⟩ ⟨"m"⟩ [1] rfl (by rfl) rfl rfl

end DecisionJournal
